import Mathlib

/-!
Verification development for the target-generation and SOCKS5-probing core
of the `sx` network scanner.

The repository provides the `scan` package test suite and the SOCKS5
scanner source.  The generator implementations (`PortGenerator`,
`IPGenerator`, `IPPortGenerator`, the file-based generators and
`LiveRequestGenerator`) are exercised by the tests but their source is not
part of the excerpt, so those operations are modelled from the
specification text; each such definition is marked `Modelled from the
spec:`.  The SOCKS5 scanner (`pkg/scan/socks5/socks5.go`) is embedded
directly from its source.

Machine integers (`uint16`, 32-bit IPv4 addresses) are represented as
`Nat` with explicit bounds where they matter.  Go's `(value, error)`
returns are represented as `Except`; the SOCKS5 `Scan` function, whose
contract about the *pair* of returns is itself under scrutiny, is
embedded as an explicit pair `Option Result × Option Error`.
Channel-based streams are represented as the finite list of values the
producer emits before closing the stream.
-/

namespace SxScan

/-- Sentinel error kinds attached to records yielded by file-based
generation: `ErrJSON` for a malformed line, `ErrIP` for an invalid
address, `ErrPort` for an out-of-range port. -/
inductive FileErr where
  | json
  | ip
  | port
deriving DecidableEq, Repr

/-- Fatal validation / construction errors returned synchronously by a
generation call. `openError` carries a file-opener failure message. -/
inductive GenError where
  | nilPorts
  | invalidPortRange
  | nilSubnet
  | openError (msg : String)
deriving DecidableEq, Repr

/-- A port range, `start`/`end` as in the Go struct `PortRange`
(`StartPort`, `EndPort : uint16`). Values are `Nat`s below 2^16. -/
structure PortRange where
  StartPort : Nat
  EndPort : Nat
deriving DecidableEq, Repr

/-- A CIDR subnet: `ip` is the 32-bit address written in the CIDR
expression (not necessarily the network address) and `maskLen` the prefix
length, mirroring Go's `net.IPNet` with a `CIDRMask(maskLen, 32)`. -/
structure Subnet where
  ip : Nat
  maskLen : Nat
deriving DecidableEq, Repr

/-- The scan `Range` input: source address/MAC (opaque values copied onto
generated requests), optional destination subnet and optional port range
list, mirroring the Go struct. `none` models a nil pointer/slice. -/
structure Range where
  SrcIP : Nat
  SrcMAC : Nat
  DstSubnet : Option Subnet
  Ports : Option (List PortRange)
deriving DecidableEq, Repr

/-- A single scan target, mirroring the Go struct `Request`: source
fields copied from the `Range`, destination 32-bit address and 16-bit
port, and an optional carried per-record error (`Err`), which turns
`Request` into a tagged valid-target-or-error record. Zero values model
Go's zero-valued fields. -/
structure Request where
  SrcIP : Nat := 0
  SrcMAC : Nat := 0
  DstIP : Nat := 0
  DstPort : Nat := 0
  Err : Option FileErr := none
deriving DecidableEq, Repr

/-- Modelled from the spec: enumeration of one `PortRange` — every
integer in `[start, end]` ascending, inclusive of both ends, computed
with a wide (unbounded `Nat`) counter so that the range ending at 65535
does not wrap in 16-bit space. -/
def portRangeValues (pr : PortRange) : List Nat :=
  List.range' pr.StartPort (pr.EndPort + 1 - pr.StartPort)

/-- Modelled from the spec: eager validation of the port-range list —
scans ranges in order and fails on the first one with `start > end`. -/
def validatePortRanges : List PortRange → Except GenError Unit
  | [] => .ok ()
  | pr :: rest =>
    if pr.StartPort ≤ pr.EndPort then validatePortRanges rest
    else .error .invalidPortRange

/-- Modelled from the spec: `PortGenerator.Ports` — fails when `ports` is
nil or empty or any range is inverted (no partial stream), otherwise
yields each range's values in declaration order, concatenated without
merging or deduplication. -/
def Ports (r : Range) : Except GenError (List Nat) :=
  match r.Ports with
  | none => .error .nilPorts
  | some ps =>
    if ps.isEmpty then .error .nilPorts
    else
      match validatePortRanges ps with
      | .error e => .error e
      | .ok _ => .ok (ps.flatMap portRangeValues)

/-- The network (lowest) address of a subnet: the subnet's `ip` with the
host bits cleared, i.e. rounded down to a multiple of the subnet size. -/
def subnetFirst (s : Subnet) : Nat :=
  s.ip / 2 ^ (32 - s.maskLen) * 2 ^ (32 - s.maskLen)

/-- Number of addresses in the subnet's numeric range. -/
def subnetSize (s : Subnet) : Nat := 2 ^ (32 - s.maskLen)

/-- Modelled from the spec: `IPGenerator.IPs` — fails when `dstSubnet` is
nil, otherwise yields every address of the subnet's numeric range in
ascending order, network and broadcast addresses included. -/
def IPs (r : Range) : Except GenError (List Nat) :=
  match r.DstSubnet with
  | none => .error .nilSubnet
  | some s => .ok (List.range' (subnetFirst s) (subnetSize s))

/-- A valid target request produced by range-based generation: `srcIP`
and `srcMAC` copied from the `Range`, destination `ip`/`port` from the
generators. -/
def mkRequest (r : Range) (ip p : Nat) : Request :=
  { SrcIP := r.SrcIP, SrcMAC := r.SrcMAC, DstIP := ip, DstPort := p, Err := none }

/-- Modelled from the spec: `IPPortGenerator.GenerateRequests` — validates
via the two sub-generators (first failure wins), then emits requests with
the outer loop over ports and the inner loop over addresses. -/
def GenerateRequests (r : Range) : Except GenError (List Request) :=
  match Ports r with
  | .error e => .error e
  | .ok ps =>
    match IPs r with
    | .error e => .error e
    | .ok ips => .ok (ps.flatMap fun p => ips.map fun ip => mkRequest r ip p)

/-! ### File-based generation

`FileIPGenerator` / `FileIPPortGenerator` read newline-delimited JSON
records through an injected opener.  The byte-level JSON syntax layer is
Go's `encoding/json`, external to this core; a line is modelled by the
outcome of that decoding: either a JSON syntax failure or a decoded
object carrying the `ip` field (a string, if present) and the `port`
field (an integer, if present); unknown fields are already discarded by
the decoder.  Address parsing of the dotted-quad `ip` string is part of
the core and is implemented concretely below. -/

/-- Outcome of JSON-decoding one input line. -/
inductive LineKind where
  | malformed
  | record (ip : Option String) (port : Option Int)
deriving DecidableEq, Repr

/-- Numeric value of a decimal digit character, `none` otherwise. -/
def charVal (c : Char) : Option Nat :=
  if '0' ≤ c ∧ c ≤ '9' then some (c.toNat - '0'.toNat) else none

/-- Splits a character list on the dot separator. -/
def splitOnDot : List Char → List (List Char)
  | [] => [[]]
  | c :: rest =>
    match splitOnDot rest with
    | [] => [[]]
    | g :: gs => if c = '.' then [] :: g :: gs else (c :: g) :: gs

/-- Value of a non-empty all-digit character list, `none` otherwise. -/
def digitsToNat : List Char → Option Nat
  | [] => none
  | l => l.foldl (fun acc c => do pure ((← acc) * 10 + (← charVal c))) (some 0)

/-- One dotted-quad octet: decimal digits with value at most 255. -/
def parseOctet (l : List Char) : Option Nat := do
  let n ← digitsToNat l
  if n ≤ 255 then pure n else none

/-- Modelled from the spec: parsing the required dotted-quad `ip` string
into a 32-bit address value; any other shape is an invalid address. -/
def parseDottedQuad (s : String) : Option Nat :=
  match splitOnDot s.data with
  | [a, b, c, d] => do
    let x ← parseOctet a
    let y ← parseOctet b
    let z ← parseOctet c
    let w ← parseOctet d
    pure (((x * 256 + y) * 256 + z) * 256 + w)
  | _ => none

/-- Modelled from the spec: per-line decoding of `FileIPPortGenerator` —
a malformed line yields an `ErrJSON`-tagged record, an unparsable or
missing address an `ErrIP`-tagged record, a port outside `[0, 65535]` an
`ErrPort`-tagged record, and otherwise a fully-populated `Request`
(absent port defaults to 0, Go's zero value). -/
def decodeLine : LineKind → Request
  | .malformed => { Err := some .json }
  | .record ip? port? =>
    match ip?.bind parseDottedQuad with
    | none => { Err := some .ip }
    | some a =>
      match port? with
      | none => { DstIP := a }
      | some p =>
        if 0 ≤ p ∧ p ≤ 65535 then { DstIP := a, DstPort := p.toNat }
        else { Err := some .port }

/-- A value yielded by `FileIPGenerator.IPs`: either an address value
(`wrapIP`) or an error-carrying record (`ipError`). -/
inductive IPOrErr where
  | addr (a : Nat)
  | err (e : FileErr)
deriving DecidableEq, Repr

/-- Modelled from the spec: per-line decoding of `FileIPGenerator` — the
`port` field is unknown to this variant and ignored. -/
def decodeLineIP : LineKind → IPOrErr
  | .malformed => .err .json
  | .record ip? _ =>
    match ip?.bind parseDottedQuad with
    | none => .err .ip
    | some a => .addr a

/-- Modelled from the spec: `FileIPPortGenerator.GenerateRequests` —
invokes the opener synchronously and returns its failure immediately with
no stream; on success every line is decoded independently and yielded,
error-tagged records included, until the source is exhausted. The opener
outcome is the decoded line list or an open failure. -/
def fileGenerateRequests (opener : Except GenError (List LineKind)) :
    Except GenError (List Request) :=
  match opener with
  | .error e => .error e
  | .ok lines => .ok (lines.map decodeLine)

/-- Modelled from the spec: `FileIPGenerator.IPs` — same per-line regime,
yielding address values or error records. -/
def fileIPs (opener : Except GenError (List LineKind)) :
    Except GenError (List IPOrErr) :=
  match opener with
  | .error e => .error e
  | .ok lines => .ok (lines.map decodeLineIP)

/-! ### Live request generation

`LiveRequestGenerator` wraps an inner generator and repeats it on an
interval until the context is cancelled. Cancellation state is modelled
as a boolean observed at every blocking select point (before each cycle's
inner pass and at the interval wait); the unbounded repetition is modelled
with a cycle budget `fuel`, and boundedness of the cancelled case shows
as output independent of `fuel`. -/

/-- Modelled from the spec: the producer loop of `LiveRequestGenerator` —
each cycle first selects on cancellation, then forwards one full inner
pass and waits out the interval; a cancelled context stops the loop
before emitting. -/
def liveRun (cancelled : Bool) (inner : List Request) : Nat → List Request
  | 0 => []
  | n + 1 => if cancelled then [] else inner ++ liveRun cancelled inner n

/-- Modelled from the spec: `LiveRequestGenerator.GenerateRequests` — an
inner-generator construction error aborts the call; otherwise the stream
is the producer loop's output. -/
def liveGenerateRequests (cancelled : Bool)
    (innerGen : Except GenError (List Request)) (fuel : Nat) :
    Except GenError (List Request) :=
  match innerGen with
  | .error e => .error e
  | .ok l => .ok (liveRun cancelled l fuel)

/-! ### SOCKS5 scanner (embedded from `pkg/scan/socks5/socks5.go`)

`Scanner.Scan` dials the target, disables graceful close, starts a
context canceller, writes a method-negotiation request and reads the
two-byte method-selection reply, every step through a deadline-refreshing
wrapper.  The network is external: one call's I/O is abstracted as the
outcome of each step (`NetEnv`).  Go's named returns
`(result scan.Result, err error)` — both nil-able and set independently —
are embedded as an explicit pair of options, mirroring the control flow
of the source line by line. -/

/-- A step's I/O failure, opaque. -/
structure IOErr where
  msg : String
deriving DecidableEq, Repr

/-- The two-byte method-selection reply: version and selected method,
as in the wire codec's `MethodReply` with byte fields `Ver`, `Method`. -/
structure MethodReply where
  Ver : Nat
  Method : Nat
deriving DecidableEq, Repr

/-- Constant `ScanType = "socks"` from `socks5.go`. -/
def ScanType : String := "socks"

/-- Constant `SOCKSVersion = 5` from `socks5.go`. -/
def SOCKSVersion : Nat := 5

/-- Modelled from the spec: the wire codec's `MethodNoAuth` constant —
the RFC1928 "no authentication required" method code (the codec source is
outside the excerpt). -/
def MethodNoAuth : Nat := 0

/-- The SOCKS5 `ScanResult` struct: scan type, protocol version, target
ip string and port, and the authentication flag. -/
structure ScanResult where
  ScanType : String
  Version : Nat
  IP : String
  Port : Nat
  Auth : Bool
deriving DecidableEq, Repr

/-- Dotted-quad string of a 32-bit address, as Go's `net.IP.String()`
renders the 4-byte destination address. -/
def ipToString (n : Nat) : String :=
  Nat.repr (n / 16777216 % 256) ++ "." ++ Nat.repr (n / 65536 % 256) ++ "." ++
    Nat.repr (n / 256 % 256) ++ "." ++ Nat.repr (n % 256)

/-- Outcomes of the I/O steps of one `Scan` call, in program order:
`dial` (TCP connect), `setLinger` (disable graceful close), `write` (the
method request through the deadline wrapper), `readReply` (the method
reply through the deadline wrapper). -/
structure NetEnv where
  dial : Except IOErr Unit
  setLinger : Except IOErr Unit
  write : Except IOErr Unit
  readReply : Except IOErr MethodReply
deriving Repr

/-- Function `Scanner.Scan` from `socks5.go`: each failing step returns the error
with the `result` named return still nil; after a successful read, a
`ScanResult` is produced exactly when the reply has version 5 and the
no-authentication method, its `Auth` field left at the zero value
`false`; any other reply returns both named returns nil. -/
def Scan (env : NetEnv) (r : Request) : Option ScanResult × Option IOErr :=
  match env.dial with
  | .error e => (none, some e)
  | .ok _ =>
    match env.setLinger with
    | .error e => (none, some e)
    | .ok _ =>
      match env.write with
      | .error e => (none, some e)
      | .ok _ =>
        match env.readReply with
        | .error e => (none, some e)
        | .ok reply =>
          if reply.Ver = SOCKSVersion ∧ reply.Method = MethodNoAuth then
            (some { ScanType := ScanType, Version := SOCKSVersion,
                    IP := ipToString r.DstIP, Port := r.DstPort,
                    Auth := false }, none)
          else
            (none, none)

/-- Right-pads a string with spaces to a minimum width: Go's
`fmt.Sprintf` verb `%-Ns` / `%-Nd` (left-justified, never truncating). -/
def padRightTo (w : Nat) (s : String) : String :=
  s ++ String.mk (List.replicate (w - s.length) ' ')

/-- Method `ScanResult.String()` from `socks5.go`:
`fmt.Sprintf` with format `%-20s %-5d` applied to `IP` and `Port`. -/
def ScanResultString (r : ScanResult) : String :=
  padRightTo 20 r.IP ++ " " ++ padRightTo 5 (Nat.repr r.Port)

/-- Left-pads a string with spaces to a minimum width (Go's `%Ns`). -/
def padLeftTo (w : Nat) (s : String) : String :=
  String.mk (List.replicate (w - s.length) ' ') ++ s

/-- The spec's reading of `Result.String()`: the ip *left-padded* to 20
characters and the port to 5, for comparison with `ScanResultString`. -/
def specResultLine (r : ScanResult) : String :=
  padLeftTo 20 r.IP ++ " " ++ padLeftTo 5 (Nat.repr r.Port)

/-- Method `ScanResult.ID()` from `socks5.go`: the `ip:port` pair. -/
def ScanResultID (r : ScanResult) : String :=
  r.IP ++ ":" ++ Nat.repr r.Port

/-! ### Helper lemmas -/

/-- Validation reports the first inverted range, wherever it sits. -/
lemma validatePortRanges_error_of_invalid (ranges : List PortRange)
    (h : ∃ pr ∈ ranges, pr.EndPort < pr.StartPort) :
    validatePortRanges ranges = .error .invalidPortRange := by
  induction ranges with
  | nil =>
    obtain ⟨pr, hmem, _⟩ := h
    exact absurd hmem (List.not_mem_nil pr)
  | cons a rest ih =>
    obtain ⟨pr, hmem, hlt⟩ := h
    by_cases ha : a.StartPort ≤ a.EndPort
    · have hrest : pr ∈ rest := by
        rcases List.mem_cons.mp hmem with rfl | hr
        · exact absurd ha (Nat.not_le_of_lt hlt)
        · exact hr
      simp [validatePortRanges, ha, ih ⟨pr, hrest, hlt⟩]
    · simp [validatePortRanges, ha]

/-- Length of a ports × addresses flat product. -/
lemma length_flatMap_map {α β γ : Type} (ps : List α) (ips : List β)
    (f : α → β → γ) :
    (ps.flatMap fun p => ips.map fun ip => f p ip).length =
      ps.length * ips.length := by
  induction ps with
  | nil => simp
  | cons a rest ih => simp [ih, Nat.succ_mul, Nat.add_comm]

/-- Element `i * |ips| + j` of a ports × addresses flat product is built
from port `i` and address `j`: the flat product is port-major. -/
lemma getElem?_flatMap_map {α β γ : Type} (ps : List α) (ips : List β)
    (f : α → β → γ) :
    ∀ (i j : Nat) (hi : i < ps.length) (hj : j < ips.length),
      (ps.flatMap fun p => ips.map fun ip => f p ip)[i * ips.length + j]? =
        some (f (ps.get ⟨i, hi⟩) (ips.get ⟨j, hj⟩)) := by
  induction ps with
  | nil => intro i j hi _; exact absurd hi (Nat.not_lt_zero i)
  | cons a rest ih =>
    intro i j hi hj
    rw [List.flatMap_cons]
    cases i with
    | zero =>
      rw [Nat.zero_mul, Nat.zero_add, List.getElem?_append_left (by simpa using hj)]
      simp [List.getElem?_map, List.getElem?_eq_getElem hj]
    | succ i' =>
      have hstep : i' * ips.length + ips.length + j =
          (List.map (fun ip => f a ip) ips).length + (i' * ips.length + j) := by
        simp; omega
      rw [Nat.succ_mul, hstep, List.getElem?_append_right (Nat.le_add_right _ _),
        Nat.add_sub_cancel_left]
      exact ih i' j (Nat.lt_of_succ_lt_succ hi) hj

/-! ### Claim theorems -/

/-- C3: for the port range with start = end = 65535, port generation
terminates after yielding exactly the single value 65535 — the wide
(`Nat`) enumeration counter does not wrap around in 16-bit space. -/
theorem ports_single_port_65535_no_overflow :
    Ports { SrcIP := 0, SrcMAC := 0, DstSubnet := none,
            Ports := some [PortRange.mk 65535 65535] } =
      .ok [65535] ∧
    portRangeValues (PortRange.mk 65535 65535) = [65535] :=
  ⟨rfl, rfl⟩

/-- C5: a port-range list containing any inverted range (start > end)
makes `Ports` fail with the validation error and yield no stream, even
when earlier ranges in the list are valid. -/
theorem ports_later_invalid_range_is_fatal (r : Range)
    (ranges : List PortRange) (h1 : r.Ports = some ranges)
    (h2 : ∃ pr ∈ ranges, pr.EndPort < pr.StartPort) :
    Ports r = .error .invalidPortRange := by
  obtain ⟨pr, hmem, hlt⟩ := h2
  cases ranges with
  | nil => exact absurd hmem (List.not_mem_nil pr)
  | cons a rest =>
    simp [Ports, h1, validatePortRanges_error_of_invalid _ ⟨pr, hmem, hlt⟩]

/-- C5 witness: the list `[(1000, 1000), (7000, 5000)]` — a valid range
followed by an inverted one — errors with no partial stream. -/
theorem ports_later_invalid_range_is_fatal_witness :
    (∃ pr ∈ [PortRange.mk 1000 1000, PortRange.mk 7000 5000],
      pr.EndPort < pr.StartPort) ∧
    Ports { SrcIP := 0, SrcMAC := 0, DstSubnet := none,
            Ports := some [PortRange.mk 1000 1000, PortRange.mk 7000 5000] } =
      .error .invalidPortRange :=
  ⟨⟨PortRange.mk 7000 5000, by simp, by decide⟩,
   ports_later_invalid_range_is_fatal _ _ rfl
     ⟨PortRange.mk 7000 5000, by simp, by decide⟩⟩

/-- C7: a failing opener makes both file-based generation calls return
that error synchronously — the result is the error itself, no stream. -/
theorem file_opener_failure_is_synchronous (e : GenError) :
    fileGenerateRequests (.error e) = .error e ∧
    fileIPs (.error e) = .error e :=
  ⟨rfl, rfl⟩

/-- C9: with an already-cancelled context, `LiveRequestGenerator`'s
stream is returned without error and closes without emitting an inner
pass, independently of how many cycles the loop was allowed — and an
inner construction error is likewise returned immediately. -/
theorem live_cancelled_context_closes_promptly :
    (∀ (inner : List Request) (fuel : Nat),
      liveGenerateRequests true (.ok inner) fuel = .ok []) ∧
    (∀ (e : GenError) (fuel : Nat),
      liveGenerateRequests true (.error e) fuel = .error e) := by
  constructor
  · intro inner fuel
    cases fuel <;> simp [liveGenerateRequests, liveRun]
  · intro e fuel
    rfl

/-- C6: for every valid subnet, `IPs` yields the subnet's full numeric
range in strictly ascending order — `2 ^ (32 - maskLen)` addresses, the
network and broadcast addresses included. -/
theorem ipgen_yields_full_subnet_ascending (r : Range) (s : Subnet)
    (h : r.DstSubnet = some s) :
    ∃ l, IPs r = .ok l ∧
      l.length = 2 ^ (32 - s.maskLen) ∧
      l.Sorted (· < ·) ∧
      ∀ n, n ∈ l ↔ subnetFirst s ≤ n ∧ n < subnetFirst s + subnetSize s := by
  refine ⟨List.range' (subnetFirst s) (subnetSize s), ?_, ?_, ?_, ?_⟩
  · simp [IPs, h]
  · simp [subnetSize]
  · exact List.pairwise_lt_range' (subnetFirst s) (subnetSize s)
  · intro n
    simp [List.mem_range'_1, subnetSize]

/-- C6 witness: `10.0.0.1/30` (base address 167772161) yields exactly the
four addresses `10.0.0.0 .. 10.0.0.3`, and `1.0.0.1/31` exactly two. -/
theorem ipgen_yields_full_subnet_ascending_witness :
    IPs { SrcIP := 0, SrcMAC := 0, DstSubnet := some (Subnet.mk 167772161 30),
          Ports := none } =
      .ok [167772160, 167772161, 167772162, 167772163] ∧
    IPs { SrcIP := 0, SrcMAC := 0, DstSubnet := some (Subnet.mk 16777217 31),
          Ports := none } =
      .ok [16777216, 16777217] ∧
    ∃ l, IPs ({ SrcIP := 0, SrcMAC := 0,
                DstSubnet := some (Subnet.mk 167772161 30),
                Ports := none } : Range) = .ok l ∧
      l.length = 2 ^ (32 - (Subnet.mk 167772161 30).maskLen) ∧
      l.Sorted (· < ·) ∧
      ∀ n, n ∈ l ↔ subnetFirst (Subnet.mk 167772161 30) ≤ n ∧
        n < subnetFirst (Subnet.mk 167772161 30) + subnetSize (Subnet.mk 167772161 30) :=
  ⟨rfl, rfl, ipgen_yields_full_subnet_ascending _ (Subnet.mk 167772161 30) rfl⟩

/-- C4: for every `Range` accepted by both sub-generators,
`GenerateRequests` emits `|ports| * |addresses|` requests in port-major,
address-minor order — element `i * |addresses| + j` is built from port
`i` and address `j` with `srcIP`/`srcMAC` copied from the `Range`. -/
theorem ipport_requests_port_major (r : Range) (ps ips : List Nat)
    (l : List Request) (hp : Ports r = .ok ps) (hi : IPs r = .ok ips)
    (hl : GenerateRequests r = .ok l) :
    l.length = ps.length * ips.length ∧
    ∀ (i j : Nat) (hil : i < ps.length) (hjl : j < ips.length),
      l[i * ips.length + j]? =
        some (mkRequest r (ips.get ⟨j, hjl⟩) (ps.get ⟨i, hil⟩)) := by
  have key : GenerateRequests r =
      .ok (ps.flatMap fun p => ips.map fun ip => mkRequest r ip p) := by
    simp [GenerateRequests, hp, hi]
  rw [key] at hl
  have hl2 : (ps.flatMap fun p => ips.map fun ip => mkRequest r ip p) = l :=
    Except.ok.inj hl
  subst hl2
  exact ⟨length_flatMap_map ps ips fun p ip => mkRequest r ip p,
    fun i j hil hjl =>
      getElem?_flatMap_map ps ips (fun p ip => mkRequest r ip p) i j hil hjl⟩

/-- C4 witness: subnet `192.168.0.1/31` (base 3232235521) with ports
`[888, 889]` yields exactly `(888, .0), (888, .1), (889, .0), (889, .1)`
with the source fields copied onto every request, and the theorem's
indexing picks out element `1 * 2 + 0` as `(889, .0)`. -/
theorem ipport_requests_port_major_witness :
    GenerateRequests ({ SrcIP := 7, SrcMAC := 9,
                        DstSubnet := some (Subnet.mk 3232235521 31),
                        Ports := some [PortRange.mk 888 889] } : Range) =
      .ok [({ SrcIP := 7, SrcMAC := 9, DstIP := 3232235520, DstPort := 888 } : Request),
           ({ SrcIP := 7, SrcMAC := 9, DstIP := 3232235521, DstPort := 888 } : Request),
           ({ SrcIP := 7, SrcMAC := 9, DstIP := 3232235520, DstPort := 889 } : Request),
           ({ SrcIP := 7, SrcMAC := 9, DstIP := 3232235521, DstPort := 889 } : Request)] ∧
    ([({ SrcIP := 7, SrcMAC := 9, DstIP := 3232235520, DstPort := 888 } : Request),
      ({ SrcIP := 7, SrcMAC := 9, DstIP := 3232235521, DstPort := 888 } : Request),
      ({ SrcIP := 7, SrcMAC := 9, DstIP := 3232235520, DstPort := 889 } : Request),
      ({ SrcIP := 7, SrcMAC := 9, DstIP := 3232235521, DstPort := 889 } : Request)]
      )[1 * 2 + 0]? =
      some ({ SrcIP := 7, SrcMAC := 9, DstIP := 3232235520, DstPort := 889 } : Request) :=
  ⟨rfl,
   (ipport_requests_port_major
      { SrcIP := 7, SrcMAC := 9, DstSubnet := some (Subnet.mk 3232235521 31),
        Ports := some [PortRange.mk 888 889] }
      [888, 889] [3232235520, 3232235521] _ rfl rfl rfl).2 1 0
      (by decide) (by decide)⟩

/-- C1: a line that fails to decode never aborts file-based generation —
for both file generators the error-tagged record is yielded in place and
every surrounding valid line still decodes to its own record; in
particular a valid line, a malformed line and a second valid line yield
exactly three records: the first request, an `ErrJSON`-tagged record, and
the second request. -/
theorem file_line_error_does_not_abort_stream :
    (∀ pre post : List LineKind,
      fileGenerateRequests (.ok (pre ++ LineKind.malformed :: post)) =
        .ok (pre.map decodeLine ++
          ({ Err := some FileErr.json } : Request) :: post.map decodeLine)) ∧
    (∀ pre post : List LineKind,
      fileIPs (.ok (pre ++ LineKind.malformed :: post)) =
        .ok (pre.map decodeLineIP ++
          IPOrErr.err FileErr.json :: post.map decodeLineIP)) ∧
    fileGenerateRequests (.ok
        [LineKind.record (some "192.168.0.1") (some 888), LineKind.malformed,
         LineKind.record (some "192.168.0.3") (some 888)]) =
      .ok [({ DstIP := 3232235521, DstPort := 888 } : Request),
           ({ Err := some FileErr.json } : Request),
           ({ DstIP := 3232235523, DstPort := 888 } : Request)] := by
  refine ⟨fun pre post => ?_, fun pre post => ?_, ?_⟩
  · simp [fileGenerateRequests, decodeLine]
  · simp [fileIPs, decodeLineIP]
  · rfl

/-- C2: when every I/O step of the SOCKS5 handshake succeeds, `Scan`
produces a result exactly when the method-selection reply has version 5
and the no-authentication method — that result carries scan type
`"socks"`, version 5, the request's destination ip and port, and
`auth = false`; any other reply gives no result and no error. -/
theorem socks5_scan_reply_classification (env : NetEnv) (r : Request)
    (reply : MethodReply) (hd : env.dial = .ok ())
    (hsl : env.setLinger = .ok ()) (hw : env.write = .ok ())
    (hr : env.readReply = .ok reply) :
    (reply.Ver = SOCKSVersion ∧ reply.Method = MethodNoAuth →
      Scan env r =
        (some (ScanResult.mk ScanType SOCKSVersion (ipToString r.DstIP)
          r.DstPort false), none)) ∧
    (¬(reply.Ver = SOCKSVersion ∧ reply.Method = MethodNoAuth) →
      Scan env r = (none, none)) := by
  constructor <;> intro hcase <;> simp [Scan, hd, hsl, hw, hr, hcase]

/-- C2 witness: a clean handshake against destination 192.168.0.1:1080
whose reply is version 5, method 0 produces exactly the SOCKS result,
while a reply selecting method 2 produces no result and no error. -/
theorem socks5_scan_reply_classification_witness :
    Scan (NetEnv.mk (.ok ()) (.ok ()) (.ok ()) (.ok (MethodReply.mk 5 0)))
        ({ DstIP := 3232235521, DstPort := 1080 } : Request) =
      (some (ScanResult.mk "socks" 5 "192.168.0.1" 1080 false), none) ∧
    Scan (NetEnv.mk (.ok ()) (.ok ()) (.ok ()) (.ok (MethodReply.mk 5 2)))
        ({ DstIP := 3232235521, DstPort := 1080 } : Request) =
      (none, none) :=
  ⟨(socks5_scan_reply_classification
      (NetEnv.mk (.ok ()) (.ok ()) (.ok ()) (.ok (MethodReply.mk 5 0)))
      ({ DstIP := 3232235521, DstPort := 1080 } : Request)
      (MethodReply.mk 5 0) rfl rfl rfl rfl).1 ⟨rfl, rfl⟩,
   (socks5_scan_reply_classification
      (NetEnv.mk (.ok ()) (.ok ()) (.ok ()) (.ok (MethodReply.mk 5 2)))
      ({ DstIP := 3232235521, DstPort := 1080 } : Request)
      (MethodReply.mk 5 2) rfl rfl rfl rfl).2 (by decide)⟩

/-- C10: `Scan` never returns both a result and an error — one side of
the returned pair is always nil — and a result is only ever constructed
after the dial, linger, write and read steps have all succeeded with a
version-5, no-authentication reply. -/
theorem socks5_scan_no_result_with_error :
    (∀ (env : NetEnv) (r : Request),
      (Scan env r).1 = none ∨ (Scan env r).2 = none) ∧
    (∀ (env : NetEnv) (r : Request) (res : ScanResult),
      (Scan env r).1 = some res →
        env.dial = .ok () ∧ env.setLinger = .ok () ∧ env.write = .ok () ∧
        ∃ reply, env.readReply = .ok reply ∧
          reply.Ver = SOCKSVersion ∧ reply.Method = MethodNoAuth) := by
  constructor
  · intro env r
    obtain ⟨d, sl, w, rr⟩ := env
    cases d with
    | error e => left; rfl
    | ok u =>
      cases sl with
      | error e => left; rfl
      | ok u2 =>
        cases w with
        | error e => left; rfl
        | ok u3 =>
          cases rr with
          | error e => left; rfl
          | ok reply =>
            right
            by_cases hc : reply.Ver = SOCKSVersion ∧ reply.Method = MethodNoAuth <;>
              simp [Scan, hc]
  · intro env r res h
    obtain ⟨d, sl, w, rr⟩ := env
    cases d with
    | error e => simp [Scan] at h
    | ok u =>
      cases sl with
      | error e => simp [Scan] at h
      | ok u2 =>
        cases w with
        | error e => simp [Scan] at h
        | ok u3 =>
          cases rr with
          | error e => simp [Scan] at h
          | ok reply =>
            by_cases hc : reply.Ver = SOCKSVersion ∧ reply.Method = MethodNoAuth
            · exact ⟨rfl, rfl, rfl, reply, rfl, hc.1, hc.2⟩
            · simp [Scan, hc] at h

/-- C10 witness: a fully successful handshake with a version-5,
no-authentication reply yields a result, and the theorem recovers the
success of every I/O step from it. -/
theorem socks5_scan_no_result_with_error_witness :
    (Scan (NetEnv.mk (.ok ()) (.ok ()) (.ok ()) (.ok (MethodReply.mk 5 0)))
        ({ DstIP := 3232235521, DstPort := 1080 } : Request)).1 =
      some (ScanResult.mk "socks" 5 "192.168.0.1" 1080 false) ∧
    (NetEnv.mk (.ok ()) (.ok ()) (.ok ()) (.ok (MethodReply.mk 5 0))
      : NetEnv).dial = .ok () :=
  ⟨rfl,
   (socks5_scan_no_result_with_error.2
      (NetEnv.mk (.ok ()) (.ok ()) (.ok ()) (.ok (MethodReply.mk 5 0)))
      ({ DstIP := 3232235521, DstPort := 1080 } : Request)
      (ScanResult.mk "socks" 5 "192.168.0.1" 1080 false) rfl).1⟩

/-- C8 counterexample: the claim reads `Result.String()` as *left*-padding
the ip to 20 characters and the port to 5; on the result for ip
`1.2.3.4`, port 80, the code's `%-20s %-5d` output pads on the *right*
(left-justified) and differs from the left-padded line. -/
theorem result_string_not_left_padded :
    ScanResultString (ScanResult.mk "socks" 5 "1.2.3.4" 80 false) =
      "1.2.3.4              80   " ∧
    ScanResultString (ScanResult.mk "socks" 5 "1.2.3.4" 80 false) ≠
      specResultLine (ScanResult.mk "socks" 5 "1.2.3.4" 80 false) := by
  constructor
  · rfl
  · decide

/-- C8 (amended): `Result.String()` left-justifies the ip, right-padding
it with spaces to a minimum width of 20, and the port's decimal form to a
minimum width of 5, separated by one space; for an ip of at most 20
characters and a port of at most 5 digits the line is exactly 26
characters wide. -/
theorem result_string_left_justified_layout (r : ScanResult)
    (h1 : r.IP.length ≤ 20) (h2 : (Nat.repr r.Port).length ≤ 5) :
    (ScanResultString r).length = 26 ∧
    (ScanResultString r).data =
      r.IP.data ++ List.replicate (20 - r.IP.length) ' ' ++
        ' ' :: ((Nat.repr r.Port).data ++
          List.replicate (5 - (Nat.repr r.Port).length) ' ') := by
  have hsp : (" " : String).data = [' '] := rfl
  have hdata : (ScanResultString r).data =
      r.IP.data ++ List.replicate (20 - r.IP.length) ' ' ++
        ' ' :: ((Nat.repr r.Port).data ++
          List.replicate (5 - (Nat.repr r.Port).length) ' ') := by
    simp [ScanResultString, padRightTo, String.data_append, hsp,
      List.append_assoc]
  refine ⟨?_, hdata⟩
  show (ScanResultString r).data.length = 26
  rw [hdata]
  simp only [List.length_append, List.length_cons, List.length_replicate]
  have e1 : r.IP.data.length = r.IP.length := rfl
  have e2 : (Nat.repr r.Port).data.length = (Nat.repr r.Port).length := rfl
  omega

/-- C8 witness: the layout theorem at ip `1.2.3.4`, port 80 — the line is
26 characters. -/
theorem result_string_left_justified_layout_witness :
    ("1.2.3.4" : String).length ≤ 20 ∧ (Nat.repr (80 : Nat)).length ≤ 5 ∧
    (ScanResultString (ScanResult.mk "socks" 5 "1.2.3.4" 80 false)).length =
      26 :=
  ⟨by decide, by decide,
   (result_string_left_justified_layout
      (ScanResult.mk "socks" 5 "1.2.3.4" 80 false)
      (by decide) (by decide)).1⟩

end SxScan

